import Mathlib

/-!
Verification of the trading-lab backtest core.

A shallow embedding, in Lean 4, of the algorithmic core of the `trading-lab`
repository: the feature engine (`feature_engine.py`), the strategy engine
(`strategy_engine.py`), the risk engine (`risk_engine.py`) and the backtest
engine (`backtest_engine.py`).  Prices and dollar amounts are modelled as
rationals (`ℚ`), trading dates as integers (day ordinals, so that Python's
`(d1 - d2).days` becomes integer subtraction), and Python `None` / `NaN`
feature values as `Option ℚ`.  Python dictionaries keyed by instrument id are
modelled as association lists in insertion order; `del` on a missing key and
mutation of a dictionary while iterating over it are modelled by an
`Except String` result carrying the corresponding Python exception, so that
control flow on error paths matches CPython semantics.
-/

namespace TradingLab

/- Batteries marks the arithmetic on `Rat` `@[irreducible]`, which blocks
`decide`/`rfl` evaluation of concrete rational computations during
elaboration (the kernel itself reduces them fine).  Restore the default
transparency locally so concrete runs of the embedded engine evaluate. -/
attribute [local semireducible] Rat.add Rat.mul Rat.inv Rat.sub

/-- The `TrendDirection` enum of `strategy_engine.py`. -/
inductive TrendDirection where
  | long
  | short
  | neutral
  deriving DecidableEq, Repr

/-- The `SignalAction` enum of `strategy_engine.py`. -/
inductive SignalAction where
  | entryLong
  | entryShort
  | exitLong
  | exitShort
  | stopLong
  | stopShort
  | hold
  | noAction
  deriving DecidableEq, Repr

/-- The `StrategyConfig` dataclass (defaults as in the source). -/
structure StrategyConfig where
  atrPeriod : Nat := 20
  maPeriod : Nat := 50
  maSlopePeriod : Nat := 10
  breakoutPeriod : Nat := 20
  exitPeriod : Nat := 10
  stopAtrMultiple : ℚ := 2
  cooldownDays : Int := 3
  deriving Repr

/-- The `PositionState` dataclass: per-instrument strategy-level position state. -/
structure PositionState where
  direction : Option TrendDirection := none
  entryPrice : ℚ := 0
  entryDate : Option Int := none
  stopPrice : ℚ := 0
  contracts : Int := 0
  lastExitDate : Option Int := none
  lastExitDirection : Option TrendDirection := none
  deriving DecidableEq, Repr

/-- One OHLC bar, as passed to `generate_signal` (`current_bar` / `prev_bar`).
The source field `open` is a Lean keyword, hence `openPrice`. -/
structure Bar where
  openPrice : ℚ
  high : ℚ
  low : ℚ
  close : ℚ
  deriving DecidableEq, Repr

/-- The `features` dict passed to `generate_signal`; `none` models NaN/None. -/
structure Features where
  atr : Option ℚ := none
  ma : Option ℚ := none
  maSlope : Option ℚ := none
  hh20 : Option ℚ := none
  ll20 : Option ℚ := none
  hh10 : Option ℚ := none
  ll10 : Option ℚ := none
  deriving DecidableEq, Repr

/-- The `StrategySignal` dataclass. -/
structure StrategySignal where
  date : Int
  action : SignalAction
  price : ℚ
  stopPrice : Option ℚ := none
  reason : String := ""
  trendDirection : Option TrendDirection := none
  atr : Option ℚ := none
  maValue : Option ℚ := none
  maSlope : Option ℚ := none
  deriving Repr

/-- The `StrategyEngine.check_trend_filter`. -/
def checkTrendFilter (close : ℚ) (ma50 maSlope10 : Option ℚ) : TrendDirection :=
  match ma50, maSlope10 with
  | some m, some s =>
      if close > m ∧ s > 0 then .long
      else if close < m ∧ s < 0 then .short
      else .neutral
  | _, _ => .neutral

/-- The `StrategyEngine.check_breakout_entry`. -/
def checkBreakoutEntry (close prevClose : ℚ) (hh20 ll20 : Option ℚ)
    (trend : TrendDirection) : Option SignalAction :=
  match hh20, ll20 with
  | some hh, some ll =>
      if trend = .long ∧ close > hh ∧ prevClose ≤ hh then some .entryLong
      else if trend = .short ∧ close < ll ∧ prevClose ≥ ll then some .entryShort
      else none
  | _, _ => none

/-- The `StrategyEngine.check_exit_signal`. -/
def checkExitSignal (close : ℚ) (ll10 hh10 : Option ℚ)
    (positionDirection : TrendDirection) : Option SignalAction :=
  match ll10, hh10 with
  | some ll, some hh =>
      if positionDirection = .long ∧ close < ll then some .exitLong
      else if positionDirection = .short ∧ close > hh then some .exitShort
      else none
  | _, _ => none

/-- The `StrategyEngine.check_stop_hit`. -/
def checkStopHit (high low stopPrice : ℚ) (positionDirection : TrendDirection) : Bool :=
  match positionDirection with
  | .long => low ≤ stopPrice
  | .short => high ≥ stopPrice
  | .neutral => false

/-- The `StrategyEngine.calculate_stop_price`. -/
def calculateStopPrice (cfg : StrategyConfig) (entryPrice atr : ℚ)
    (direction : TrendDirection) : ℚ :=
  let stopDistance := cfg.stopAtrMultiple * atr
  match direction with
  | .long => entryPrice - stopDistance
  | _ => entryPrice + stopDistance

/-- The `StrategyEngine.is_in_cooldown`.  `(current_date - last_exit_date).days`
is integer subtraction on day ordinals. -/
def isInCooldown (cfg : StrategyConfig) (currentDate : Int)
    (lastExitDate : Option Int) (lastExitDirection : Option TrendDirection)
    (entryDirection : TrendDirection) : Bool :=
  match lastExitDate, lastExitDirection with
  | some e, some d =>
      if d ≠ entryDirection then false
      else decide (currentDate - e < cfg.cooldownDays)
  | _, _ => false

/-- The `StrategyEngine.generate_signal`.  The only failure path is the Python
`TypeError` raised by `calculate_stop_price` when the entry branch is reached
with `atr_20 = None` (`stop_atr_multiple * None`). -/
def generateSignal (cfg : StrategyConfig) (currentDate : Int) (currentBar : Bar)
    (prevBar : Option Bar) (features : Features) (position : PositionState) :
    Except String StrategySignal :=
  let close := currentBar.close
  let high := currentBar.high
  let low := currentBar.low
  match position.direction with
  | some dir =>
      if checkStopHit high low position.stopPrice dir then
        .ok { date := currentDate
              action := if dir = .long then .stopLong else .stopShort
              price := position.stopPrice
              reason := "Catastrophe stop hit"
              atr := features.atr, maValue := features.ma, maSlope := features.maSlope }
      else
        match checkExitSignal close features.ll10 features.hh10 dir with
        | some exitAction =>
            .ok { date := currentDate
                  action := exitAction
                  price := close
                  reason := "Exit signal: close crossed exit band"
                  atr := features.atr, maValue := features.ma, maSlope := features.maSlope }
        | none =>
            .ok { date := currentDate
                  action := .hold
                  price := close
                  reason := "Holding position"
                  trendDirection := some dir
                  atr := features.atr, maValue := features.ma, maSlope := features.maSlope }
  | none =>
      match prevBar with
      | none =>
          .ok { date := currentDate
                action := .noAction
                price := close
                reason := "No previous bar data"
                atr := features.atr, maValue := features.ma, maSlope := features.maSlope }
      | some pb =>
          let trend := checkTrendFilter close features.ma features.maSlope
          if trend = .neutral then
            .ok { date := currentDate
                  action := .noAction
                  price := close
                  reason := "No clear trend (neutral filter)"
                  trendDirection := some trend
                  atr := features.atr, maValue := features.ma, maSlope := features.maSlope }
          else
            match checkBreakoutEntry close pb.close features.hh20 features.ll20 trend with
            | none =>
                .ok { date := currentDate
                      action := .noAction
                      price := close
                      reason := "Trend but no breakout"
                      trendDirection := some trend
                      atr := features.atr, maValue := features.ma, maSlope := features.maSlope }
            | some entryAction =>
                let entryDirection : TrendDirection :=
                  if entryAction = .entryLong then .long else .short
                if isInCooldown cfg currentDate position.lastExitDate
                    position.lastExitDirection entryDirection then
                  .ok { date := currentDate
                        action := .noAction
                        price := close
                        reason := "In cooldown period"
                        trendDirection := some trend
                        atr := features.atr, maValue := features.ma, maSlope := features.maSlope }
                else
                  match features.atr with
                  | none => .error "TypeError: unsupported operand type for *: float and NoneType"
                  | some a =>
                      .ok { date := currentDate
                            action := entryAction
                            price := close
                            stopPrice := some (calculateStopPrice cfg close a entryDirection)
                            reason := "Breakout entry"
                            trendDirection := some trend
                            atr := features.atr, maValue := features.ma, maSlope := features.maSlope }

/-- The `RiskMode` enum of `risk_engine.py`. -/
inductive RiskMode where
  | normal
  | warning
  | halt
  deriving DecidableEq, Repr

/-- The `RiskConfig` dataclass (defaults as in the source). -/
structure RiskConfig where
  riskPerTrade : ℚ := 5 / 1000
  maxContractsPerInstrument : Option Int := none
  maxGrossExposure : Option ℚ := none
  maxCorrelatedExposure : Option ℚ := none
  drawdownWarningPct : ℚ := 10 / 100
  drawdownHaltPct : ℚ := 15 / 100
  dailyLossLimitPct : ℚ := 2 / 100
  deriving Repr

/-- The `PositionSize` dataclass. -/
structure PositionSize where
  contracts : Int
  riskAmount : ℚ
  stopDistancePoints : ℚ
  stopDistanceDollars : ℚ
  reason : String
  deriving Repr

/-- The `RiskState` dataclass. -/
structure RiskState where
  equity : ℚ
  peakEquity : ℚ
  dailyPnl : ℚ
  drawdownPct : ℚ
  dailyLossPct : ℚ
  mode : RiskMode
  riskMultiplier : ℚ
  canOpenNewTrades : Bool
  message : String
  deriving Repr

/-- The `RiskEngine.calculate_risk_state`. -/
def calculateRiskState (cfg : RiskConfig) (currentEquity peakEquity dailyPnl
    startOfDayEquity : ℚ) : RiskState :=
  let drawdownPct := if peakEquity > 0 then (peakEquity - currentEquity) / peakEquity else 0
  let dailyLossPct := if startOfDayEquity > 0 then dailyPnl / startOfDayEquity else 0
  let base : RiskState :=
    { equity := currentEquity, peakEquity := peakEquity, dailyPnl := dailyPnl
      drawdownPct := drawdownPct, dailyLossPct := dailyLossPct
      mode := .normal, riskMultiplier := 1, canOpenNewTrades := true
      message := "Normal operations" }
  if dailyLossPct < -cfg.dailyLossLimitPct then
    { base with mode := .halt, riskMultiplier := 0, canOpenNewTrades := false
                message := "Daily loss limit exceeded. No new trades today." }
  else if drawdownPct ≥ cfg.drawdownHaltPct then
    { base with mode := .halt, riskMultiplier := 0, canOpenNewTrades := false
                message := "Max drawdown exceeded. Risk-off mode." }
  else if drawdownPct ≥ cfg.drawdownWarningPct then
    { base with mode := .warning, riskMultiplier := 1 / 2, canOpenNewTrades := true
                message := "Drawdown warning. Risk reduced to 50 percent." }
  else base

/-- The `RiskEngine.calculate_position_size`.  `int(math.floor(x))` is `⌊x⌋`. -/
def calculatePositionSize (cfg : RiskConfig) (equity entryPrice stopPrice : ℚ)
    (_tickSize multiplier : ℚ) (riskState : RiskState) : PositionSize :=
  let stopDistancePoints := |entryPrice - stopPrice|
  let stopDistanceDollars := stopDistancePoints * multiplier
  if stopDistanceDollars ≤ 0 then
    { contracts := 0, riskAmount := 0, stopDistancePoints := 0
      stopDistanceDollars := 0, reason := "Invalid stop distance" }
  else
    let baseRiskAmount := equity * cfg.riskPerTrade
    let adjustedRiskAmount := baseRiskAmount * riskState.riskMultiplier
    if adjustedRiskAmount ≤ 0 then
      { contracts := 0, riskAmount := 0, stopDistancePoints := stopDistancePoints
        stopDistanceDollars := stopDistanceDollars, reason := "Risk halted" }
    else
      let contractsFloat := adjustedRiskAmount / stopDistanceDollars
      let contracts : Int := ⌊contractsFloat⌋
      let (contracts, reason) :=
        match cfg.maxContractsPerInstrument with
        | some maxC =>
            if contracts > maxC then (maxC, "Limited to max contracts per instrument")
            else (contracts, "Normal sizing")
        | none => (contracts, "Normal sizing")
      let contracts := max 0 contracts
      { contracts := contracts, riskAmount := adjustedRiskAmount
        stopDistancePoints := stopDistancePoints
        stopDistanceDollars := stopDistanceDollars, reason := reason }

/-- Entry of the `current_positions` list handed to `check_exposure_limits`
(a dict with `value` and `symbol` keys in the source). -/
structure ExposureEntry where
  value : ℚ
  symbol : String
  deriving Repr

/-- The `RiskEngine.check_exposure_limits`.  `instrument_symbol` truthiness in
Python: `None` and the empty string are falsy. -/
def checkExposureLimits (cfg : RiskConfig) (currentPositions : List ExposureEntry)
    (newPositionValue equity : ℚ) (instrumentSymbol : Option String) :
    Bool × String :=
  let totalCurrentExposure := (currentPositions.map (fun p => |p.value|)).sum
  let totalNewExposure := totalCurrentExposure + |newPositionValue|
  let grossBreached : Bool :=
    match cfg.maxGrossExposure with
    | some mg => decide (totalNewExposure > equity * mg)
    | none => false
  if grossBreached then
    (false, "Would exceed max gross exposure")
  else
    let symTruthy : Bool := match instrumentSymbol with
      | some s => decide (s ≠ "")
      | none => false
    let correlatedBreached : Bool :=
      match cfg.maxCorrelatedExposure with
      | some mc =>
          symTruthy &&
          match instrumentSymbol with
          | some s =>
              decide (s = "ES" ∨ s = "NQ") &&
              decide (((currentPositions.filter
                  (fun p => decide (p.symbol = "ES" ∨ p.symbol = "NQ"))).map
                    (fun p => |p.value|)).sum + |newPositionValue| > equity * mc)
          | none => false
      | none => false
    if correlatedBreached then
      (false, "Would exceed max correlated exposure for ES+NQ")
    else
      (true, "Within exposure limits")

/-- The `RiskEngine.validate_trade`. -/
def validateTrade (cfg : RiskConfig) (equity peakEquity dailyPnl startOfDayEquity
    entryPrice stopPrice tickSize multiplier : ℚ)
    (currentPositions : Option (List ExposureEntry))
    (instrumentSymbol : Option String) : PositionSize × RiskState :=
  let riskState := calculateRiskState cfg equity peakEquity dailyPnl startOfDayEquity
  if !riskState.canOpenNewTrades then
    ({ contracts := 0, riskAmount := 0
       stopDistancePoints := |entryPrice - stopPrice|
       stopDistanceDollars := |entryPrice - stopPrice| * multiplier
       reason := riskState.message }, riskState)
  else
    let positionSize :=
      calculatePositionSize cfg equity entryPrice stopPrice tickSize multiplier riskState
    match currentPositions with
    | some ps =>
        if positionSize.contracts > 0 then
          let positionValue := (positionSize.contracts : ℚ) * entryPrice * multiplier
          let (allowed, reason) :=
            checkExposureLimits cfg ps positionValue equity instrumentSymbol
          if !allowed then
            ({ positionSize with contracts := 0, reason := reason }, riskState)
          else (positionSize, riskState)
        else (positionSize, riskState)
    | none => (positionSize, riskState)

/-! ## Feature engine (`feature_engine.py`) -/

/-- The per-row true range of `FeatureEngine.compute_atr`:
`tr = concat([high-low, |high-prevClose|, |low-prevClose|]).max(axis=1)`.
On the first row `close.shift(1)` is NaN and pandas `max` skips NaN, so the
true range degenerates to `high - low` there. -/
def trueRangeList (bars : List Bar) : List ℚ :=
  bars.mapIdx (fun i b =>
    match i, bars.get? (i - 1) with
    | 0, _ => b.high - b.low
    | _ + 1, some pb => max (b.high - b.low) (max |b.high - pb.close| |b.low - pb.close|)
    | _ + 1, none => b.high - b.low)

/-- The `FeatureEngine.compute_atr`: rolling mean of the true range over `period`
bars (`rolling(window=period).mean()`, full window required), `none` = NaN. -/
def computeAtr (bars : List Bar) (period : Nat) : List (Option ℚ) :=
  let tr := trueRangeList bars
  (List.range bars.length).map (fun i =>
    if i + 1 < period then none
    else some (((tr.drop (i + 1 - period)).take period).sum / (period : ℚ)))

/-! ## Backtest engine (`backtest_engine.py`)

Dictionaries keyed by instrument id become association lists in insertion
order.  `del` on a missing key yields `KeyError`; mutating a dict while a
`for ... in dict.items()` loop is running makes the next iterator step raise
`RuntimeError: dictionary changed size during iteration` (CPython checks the
size before checking exhaustion, so the error fires even on the final step).
-/

/-- Dict lookup (`d[k]` guarded by `k in d`, or `d.get(k)`). -/
def dictLookup (l : List (Nat × α)) (k : Nat) : Option α :=
  (l.find? (fun p => p.1 == k)).map Prod.snd

/-- Dict store `d[k] = v`: update in place, else append (insertion order). -/
def dictInsert (l : List (Nat × α)) (k : Nat) (v : α) : List (Nat × α) :=
  if l.any (fun p => p.1 == k) then
    l.map (fun p => if p.1 == k then (k, v) else p)
  else l ++ [(k, v)]

/-- Python `del d[k]`: removes the entry, `KeyError` when absent. -/
def dictDel (l : List (Nat × α)) (k : Nat) : Except String (List (Nat × α)) :=
  if l.any (fun p => p.1 == k) then .ok (l.eraseP (fun p => p.1 == k))
  else .error "KeyError"

/-- Static instrument reference data (the fields the engine reads). -/
structure Instrument where
  id : Nat
  symbol : String
  tickSize : ℚ
  multiplier : ℚ
  deriving Repr

/-- One row of the per-instrument features dataframe built by
`get_features_dataframe`: a bar joined with its feature row.  `atr`/`ma` are
non-`none` in persisted rows (`recompute_features_for_instrument` skips rows
with NaN there), but the other features may be missing. -/
structure DayRow where
  date : Int
  openPrice : ℚ
  high : ℚ
  low : ℚ
  close : ℚ
  atr : Option ℚ := none
  ma : Option ℚ := none
  maSlope : Option ℚ := none
  hh20 : Option ℚ := none
  ll20 : Option ℚ := none
  hh10 : Option ℚ := none
  ll10 : Option ℚ := none
  deriving Repr

/-- The OHLC part of a row (the `current_bar` / `prev_bar` dicts). -/
def DayRow.toBar (r : DayRow) : Bar :=
  { openPrice := r.openPrice, high := r.high, low := r.low, close := r.close }

/-- One entry of `instrument_data`: an instrument plus its dataframe
(rows sorted by date, unique dates).  The engine only keeps instruments with
at least 2 rows; callers of the embedded loop supply such data directly. -/
structure InstData where
  instrument : Instrument
  rows : List DayRow
  deriving Repr

/-- The `instrument_data[inst_id]` lookup. -/
def findInstData (data : List InstData) (k : Nat) : Option InstData :=
  data.find? (fun x => x.instrument.id == k)

/-- The `df.index.get_loc(current_date)` (also used for `current_date in df.index`). -/
def rowIndexOf (rows : List DayRow) (d : Int) : Option Nat :=
  rows.findIdx? (fun r => r.date == d)

/-- The `df.loc[current_date]`. -/
def rowAtDate (rows : List DayRow) (d : Int) : Option DayRow :=
  rows.find? (fun r => r.date == d)

/-- The `BacktestEngine._get_next_trading_day`. -/
def getNextTradingDay (rows : List DayRow) (d : Int) : Option Int :=
  match rowIndexOf rows d with
  | some i => if i < rows.length - 1 then (rows.get? (i + 1)).map (·.date) else none
  | none => none

/-- The `BacktestConfig` schema (the fields the engine reads; defaults as in
`schemas.py`). -/
structure BacktestConfig where
  initialCapital : ℚ := 100000
  atrPeriod : Nat := 20
  maPeriod : Nat := 50
  maSlopePeriod : Nat := 10
  breakoutPeriod : Nat := 20
  exitPeriod : Nat := 10
  stopAtrMultiple : ℚ := 2
  cooldownDays : Int := 3
  riskPerTrade : ℚ := 5 / 1000
  maxContractsPerInstrument : Option Int := none
  maxGrossExposure : Option ℚ := none
  maxCorrelatedExposure : Option ℚ := none
  slippageTicks : ℚ := 1
  commissionPerContract : ℚ := 5 / 2
  drawdownWarningPct : ℚ := 10 / 100
  drawdownHaltPct : ℚ := 15 / 100
  dailyLossLimitPct : ℚ := 2 / 100
  deriving Repr

/-- The `StrategyConfig` built from the run config in `run_backtest`. -/
def BacktestConfig.toStrategyConfig (c : BacktestConfig) : StrategyConfig :=
  { atrPeriod := c.atrPeriod, maPeriod := c.maPeriod
    maSlopePeriod := c.maSlopePeriod, breakoutPeriod := c.breakoutPeriod
    exitPeriod := c.exitPeriod, stopAtrMultiple := c.stopAtrMultiple
    cooldownDays := c.cooldownDays }

/-- The `RiskConfig` built from the run config in `run_backtest`. -/
def BacktestConfig.toRiskConfig (c : BacktestConfig) : RiskConfig :=
  { riskPerTrade := c.riskPerTrade
    maxContractsPerInstrument := c.maxContractsPerInstrument
    maxGrossExposure := c.maxGrossExposure
    maxCorrelatedExposure := c.maxCorrelatedExposure
    drawdownWarningPct := c.drawdownWarningPct
    drawdownHaltPct := c.drawdownHaltPct
    dailyLossLimitPct := c.dailyLossLimitPct }

/-- The `BacktestPosition` dataclass. -/
structure BacktestPosition where
  instrumentId : Nat
  symbol : String
  quantity : Int
  entryPrice : ℚ
  entryDate : Int
  stopPrice : ℚ
  multiplier : ℚ
  deriving Repr

/-- The `BacktestPosition.get_value`. -/
def BacktestPosition.getValue (p : BacktestPosition) (currentPrice : ℚ) : ℚ :=
  (p.quantity : ℚ) * currentPrice * p.multiplier

/-- The `BacktestPosition.get_pnl`. -/
def BacktestPosition.getPnl (p : BacktestPosition) (currentPrice : ℚ) : ℚ :=
  (p.quantity : ℚ) * (currentPrice - p.entryPrice) * p.multiplier

/-- The `BacktestState` dataclass. -/
structure BacktestState where
  equity : ℚ
  cash : ℚ
  peakEquity : ℚ
  positions : List (Nat × BacktestPosition) := []
  strategyStates : List (Nat × PositionState) := []
  startOfDayEquity : ℚ := 0
  totalTrades : Nat := 0
  winningTrades : Nat := 0
  losingTrades : Nat := 0
  grossProfit : ℚ := 0
  grossLoss : ℚ := 0
  deriving Repr

/-- The `PortfolioSnapshot` record (the fields written by the engine). -/
structure PortfolioSnapshot where
  date : Int
  equity : ℚ
  cash : ℚ
  unrealizedPnl : ℚ
  realizedPnl : ℚ
  dailyPnl : ℚ
  drawdown : ℚ
  totalExposure : ℚ
  numPositions : Nat
  deriving Repr

/-- The `BacktestEngine._execute_exit` (order/fill DB writes dropped).  The final
`del state.positions[instrument_id]` is the dictionary removal. -/
def executeExit (cfg : BacktestConfig) (_currentDate : Int) (instrumentId : Nat)
    (position : BacktestPosition) (exitPrice : ℚ) (_reason : String)
    (st : BacktestState) : Except String BacktestState := do
  let commission := cfg.commissionPerContract * (position.quantity.natAbs : ℚ)
  let realizedPnl := position.getPnl exitPrice
  let netPnl := realizedPnl - commission
  let st := { st with totalTrades := st.totalTrades + 1 }
  let st :=
    if netPnl > 0 then
      { st with winningTrades := st.winningTrades + 1
                grossProfit := st.grossProfit + netPnl }
    else
      { st with losingTrades := st.losingTrades + 1
                grossLoss := st.grossLoss + |netPnl| }
  let st := { st with cash := st.cash + realizedPnl - commission }
  let ps ← dictDel st.positions instrumentId
  .ok { st with positions := ps }

/-- The `BacktestEngine._execute_entry` (order/fill DB writes dropped): store the
position and deduct only the commission from cash. -/
def executeEntry (cfg : BacktestConfig) (entryDate : Int) (inst : Instrument)
    (quantity : Int) (entryPrice stopPrice : ℚ) (st : BacktestState) :
    BacktestState :=
  let commission := cfg.commissionPerContract * (quantity.natAbs : ℚ)
  let position : BacktestPosition :=
    { instrumentId := inst.id, symbol := inst.symbol, quantity := quantity
      entryPrice := entryPrice, entryDate := entryDate, stopPrice := stopPrice
      multiplier := inst.multiplier }
  { st with positions := dictInsert st.positions inst.id position
            cash := st.cash - commission }

/-- The `for inst_id, position in state.positions.items():` loop body of
`_update_positions_and_check_stops`, with CPython's live-iterator semantics:
once the dict's size has changed (the `del` inside `_execute_exit`), the next
iterator step raises `RuntimeError` — including the final, exhausting step. -/
def checkStopsLoop (cfg : BacktestConfig) (d : Int) (data : List InstData) :
    List (Nat × BacktestPosition) → Bool → BacktestState → List Nat →
    Except String (BacktestState × List Nat)
  | [], sizeChanged, st, toClose =>
      if sizeChanged then .error "RuntimeError: dictionary changed size during iteration"
      else .ok (st, toClose)
  | (instId, pos) :: rest, sizeChanged, st, toClose =>
      if sizeChanged then .error "RuntimeError: dictionary changed size during iteration"
      else
        match findInstData data instId with
        | none => checkStopsLoop cfg d data rest sizeChanged st toClose
        | some idata =>
            match rowAtDate idata.rows d with
            | none => checkStopsLoop cfg d data rest sizeChanged st toClose
            | some row =>
                let stopHit : Bool :=
                  if pos.quantity > 0 then row.low ≤ pos.stopPrice
                  else row.high ≥ pos.stopPrice
                let exitPrice := if stopHit then pos.stopPrice else row.close
                if stopHit then do
                  let st' ← executeExit cfg d instId pos exitPrice "stop_hit" st
                  checkStopsLoop cfg d data rest true st' (toClose ++ [instId])
                else checkStopsLoop cfg d data rest sizeChanged st toClose

/-- The `BacktestEngine._update_positions_and_check_stops`: the stop-check loop
followed by `for inst_id in positions_to_close: del state.positions[inst_id]`
(a second removal of already-removed keys). -/
def updatePositionsAndCheckStops (cfg : BacktestConfig) (d : Int)
    (st : BacktestState) (data : List InstData) : Except String BacktestState := do
  let (st', toClose) ← checkStopsLoop cfg d data st.positions false st []
  let finalPositions ← toClose.foldlM (fun ps k => dictDel ps k) st'.positions
  .ok { st' with positions := finalPositions }

/-- The `BacktestEngine._process_signal` (DB signal bookkeeping dropped). -/
def processSignal (cfg : BacktestConfig) (sig : StrategySignal) (inst : Instrument)
    (d : Int) (st : BacktestState) (rows : List DayRow) :
    Except String BacktestState :=
  if sig.action = .exitLong ∨ sig.action = .exitShort ∨
      sig.action = .stopLong ∨ sig.action = .stopShort then
    match dictLookup st.positions inst.id with
    | some position => do
        let st' ← executeExit cfg d inst.id position sig.price "signal_exit" st
        -- second `del state.positions[instrument.id]` (KeyError: already gone)
        let ps ← dictDel st'.positions inst.id
        let st' := { st' with positions := ps }
        match dictLookup st'.strategyStates inst.id with
        | some ss =>
            let exitDir : TrendDirection :=
              if sig.action = .exitLong ∨ sig.action = .stopLong then .long else .short
            let ss' : PositionState :=
              { ss with lastExitDate := some d
                        lastExitDirection := some exitDir
                        direction := none }
            .ok { st' with strategyStates := dictInsert st'.strategyStates inst.id ss' }
        | none => .error "KeyError: strategy_states"
    | none => .ok st
  else if sig.action = .entryLong ∨ sig.action = .entryShort then do
    let currentPositions : List ExposureEntry :=
      st.positions.map (fun p => { value := p.2.getValue sig.price, symbol := p.2.symbol })
    let stopPx ← match sig.stopPrice with
      | some sp => Except.ok sp
      | none => Except.error "TypeError: unsupported operand type for -: float and NoneType"
    let (positionSize, _riskState) :=
      validateTrade cfg.toRiskConfig st.equity st.peakEquity
        (st.equity - st.startOfDayEquity) st.startOfDayEquity
        sig.price stopPx inst.tickSize inst.multiplier
        (some currentPositions) (some inst.symbol)
    if positionSize.contracts > 0 then
      match getNextTradingDay rows d with
      | some nextDate =>
          match rowAtDate rows nextDate with
          | none => .error "KeyError: loc"
          | some nextRow => do
              let slippageDollars := cfg.slippageTicks * inst.tickSize
              let (entryPrice, quantity) :=
                if sig.action = .entryLong then
                  (nextRow.openPrice + slippageDollars, positionSize.contracts)
                else
                  (nextRow.openPrice - slippageDollars, -positionSize.contracts)
              let st' := executeEntry cfg nextDate inst quantity entryPrice stopPx st
              match dictLookup st'.strategyStates inst.id with
              | some ss =>
                  let ss' : PositionState :=
                    { ss with
                        direction := some (if sig.action = .entryLong then .long else .short)
                        entryPrice := entryPrice
                        entryDate := some nextDate
                        stopPrice := stopPx
                        contracts := positionSize.contracts }
                  .ok { st' with strategyStates := dictInsert st'.strategyStates inst.id ss' }
              | none => .error "KeyError: strategy_states"
      | none => .ok st
    else .ok st
  else .ok st

/-- The `features` dict assembled in `_process_day` (lines 261-269): breakout
references `hh_20` / `ll_20` come from the *previous* row, the exit references
`hh_10` / `ll_10` from the *current* row. -/
def buildFeatures (currentRow prevRow : DayRow) : Features :=
  { atr := currentRow.atr, ma := currentRow.ma, maSlope := currentRow.maSlope
    hh20 := prevRow.hh20, ll20 := prevRow.ll20
    hh10 := currentRow.hh10, ll10 := currentRow.ll10 }

/-- The `BacktestEngine._create_daily_snapshot`: mark open positions at the day's
close (positions without a bar on this date contribute nothing), set
`equity = cash + unrealized_pnl`, ratchet `peak_equity`, compute drawdown. -/
def createDailySnapshot (d : Int) (st : BacktestState) (data : List InstData) :
    BacktestState × PortfolioSnapshot :=
  let pnlOf := fun (p : Nat × BacktestPosition) =>
    match findInstData data p.1 with
    | some idata =>
        match rowAtDate idata.rows d with
        | some row => p.2.getPnl row.close
        | none => 0
    | none => 0
  let exposureOf := fun (p : Nat × BacktestPosition) =>
    match findInstData data p.1 with
    | some idata =>
        match rowAtDate idata.rows d with
        | some row => |p.2.getValue row.close|
        | none => 0
    | none => 0
  let unrealizedPnl := (st.positions.map pnlOf).sum
  let totalExposure := (st.positions.map exposureOf).sum
  let equity := st.cash + unrealizedPnl
  let peakEquity := if equity > st.peakEquity then equity else st.peakEquity
  let drawdown := if peakEquity > 0 then (peakEquity - equity) / peakEquity else 0
  let dailyPnl := equity - st.startOfDayEquity
  let st' := { st with equity := equity, peakEquity := peakEquity }
  (st', { date := d, equity := equity, cash := st.cash
          unrealizedPnl := unrealizedPnl
          realizedPnl := st.grossProfit - st.grossLoss
          dailyPnl := dailyPnl, drawdown := drawdown
          totalExposure := totalExposure
          numPositions := st.positions.length })

/-- The `BacktestEngine._process_day`: reset start-of-day equity, run the stop
check, generate and process one signal per instrument with data on this date
(skipping an instrument's first bar), then append the daily snapshot. -/
def processDay (cfg : BacktestConfig) (data : List InstData) (d : Int)
    (st : BacktestState) : Except String (BacktestState × PortfolioSnapshot) := do
  let st := { st with startOfDayEquity := st.equity }
  let st ← updatePositionsAndCheckStops cfg d st data
  let st ← data.foldlM (fun st idata =>
      match rowIndexOf idata.rows d with
      | none => .ok st
      | some idx =>
          if idx = 0 then .ok st
          else
            match idata.rows.get? idx, idata.rows.get? (idx - 1) with
            | some currentRow, some prevRow => do
                let features := buildFeatures currentRow prevRow
                let position ←
                  match dictLookup st.strategyStates idata.instrument.id with
                  | some p => Except.ok p
                  | none => Except.error "KeyError: strategy_states"
                let sig ← generateSignal cfg.toStrategyConfig d currentRow.toBar
                  (some prevRow.toBar) features position
                processSignal cfg sig idata.instrument d st idata.rows
            | _, _ => .error "KeyError: iloc") st
  .ok (createDailySnapshot d st data)

/-- The event loop of `run_backtest`: process the dates in order, keeping the
snapshots committed so far; a raised exception ends the loop with the failure
message (partial results are preserved, as in the source). -/
def runBacktestLoop (cfg : BacktestConfig) (data : List InstData) :
    List Int → BacktestState → List PortfolioSnapshot × Except String BacktestState
  | [], st => ([], .ok st)
  | d :: rest, st =>
      match processDay cfg data d st with
      | .error e => ([], .error e)
      | .ok (st', snap) =>
          let (snaps, r) := runBacktestLoop cfg data rest st'
          (snap :: snaps, r)

/-- The `all_dates`: the sorted union of the dates present for any instrument. -/
def allTradingDates (data : List InstData) : List Int :=
  ((data.map (fun i => i.rows.map (·.date))).flatten.dedup).insertionSort (· ≤ ·)

/-- The `run_backtest` after data preparation: initial state from the initial
capital, one fresh `PositionState` per instrument, then the daily event loop. -/
def runBacktest (cfg : BacktestConfig) (data : List InstData) :
    List PortfolioSnapshot × Except String BacktestState :=
  let st0 : BacktestState :=
    { equity := cfg.initialCapital, cash := cfg.initialCapital
      peakEquity := cfg.initialCapital
      startOfDayEquity := cfg.initialCapital
      strategyStates := data.map (fun i => (i.instrument.id, ({} : PositionState))) }
  runBacktestLoop cfg data (allTradingDates data) st0

/-- The max-drawdown-duration loop of `_calculate_final_metrics` (lines
670-682): state `(in_drawdown, dd_start, max_dd_days)` with index `i`. -/
def ddScan : List ℚ → Bool → Nat → Nat → Nat → Nat
  | [], _, _, _, maxDdDays => maxDdDays
  | dd :: rest, inDrawdown, ddStart, i, maxDdDays =>
      if dd > 0 ∧ inDrawdown = false then
        ddScan rest true i (i + 1) maxDdDays
      else if dd = 0 ∧ inDrawdown = true then
        ddScan rest false ddStart (i + 1) (max maxDdDays (i - ddStart))
      else
        ddScan rest inDrawdown ddStart (i + 1) maxDdDays

/-- The `backtest_run.max_drawdown_duration` as computed from the snapshot
drawdown series. -/
def maxDrawdownDuration (drawdowns : List ℚ) : Nat :=
  ddScan drawdowns false 0 0 0

/-! ## Spec-side definitions

Definitions in this section follow the words of the specification (not the
code); they are only used to compare spec statements against the embedded
code. -/

/-- Number of leading entries of a list that are strictly positive. -/
def leadingPos : List ℚ → Nat
  | [] => 0
  | x :: l => if 0 < x then leadingPos l + 1 else 0

/-- Number of trailing entries of a list that are strictly positive. -/
def trailingPos (l : List ℚ) : Nat :=
  leadingPos l.reverse

/-- Modelled from the spec: the length of the longest contiguous run of days
with drawdown > 0, *including* a run still ongoing at the last snapshot —
the maximum, over all starting offsets, of the number of consecutive
positive entries from that offset. -/
def longestPositiveRun (ds : List ℚ) : Nat :=
  ((List.range (ds.length + 1)).map (fun a => leadingPos (ds.drop a))).foldr max 0

/-- Indices whose drawdown entry equals zero. -/
def zeroIndices (ds : List ℚ) : List Nat :=
  (List.range ds.length).filter (fun b => decide (ds.getD b 1 = 0))

/-- The length of the longest contiguous run of days with drawdown > 0 that
is *terminated* by a later day with drawdown = 0: the maximum, over all
zero-drawdown days `b`, of the number of trailing positive entries of the
prefix before `b`. -/
def longestTerminatedRun (ds : List ℚ) : Nat :=
  ((zeroIndices ds).map (fun b => trailingPos (ds.take b))).foldr max 0

/-- Modelled from the spec: the number of *trading* days that have elapsed
since `exitDate` as of `currentDate`, where the trading calendar is the list
of dates carrying bars — the count of trading dates in `(exitDate,
currentDate]`. -/
def tradingDaysSince (allDates : List Int) (exitDate currentDate : Int) : Nat :=
  (allDates.filter (fun t => decide (exitDate < t ∧ t ≤ currentDate))).length

/-! ## Concrete inputs used by counterexamples and witnesses -/

/-- A demo instrument: point multiplier 1, tick size 0 (so slippage is 0). -/
def instX : Instrument := { id := 1, symbol := "X", tickSize := 0, multiplier := 1 }

/-- Bars + features for a three-day run: a long breakout on day 1 (entry on
day 2's open at 105, stop 95), then a fall to 96 on day 2 that stays above
the stop. -/
def rowsX : List DayRow :=
  [ { date := 0, openPrice := 90, high := 91, low := 89, close := 90,
      atr := some 10, ma := some 50, maSlope := some 1, hh20 := some 100,
      ll20 := some 1, hh10 := some 1000, ll10 := some 1 },
    { date := 1, openPrice := 104, high := 106, low := 99, close := 105,
      atr := some 10, ma := some 50, maSlope := some 1, hh20 := some 105,
      ll20 := some 1, hh10 := some 1000, ll10 := some 1 },
    { date := 2, openPrice := 105, high := 106, low := 96, close := 96,
      atr := some 10, ma := some 50, maSlope := some 1, hh20 := some 106,
      ll20 := some 1, hh10 := some 1000, ll10 := some 1 } ]

/-- Instrument data for the three-day demo run. -/
def dataX : List InstData := [{ instrument := instX, rows := rowsX }]

/-- Demo run config: 1000 initial capital, the full equity risked per trade
(`risk_per_trade = 1.0`, accepted by the engine — `BacktestConfig` applies no
bounds), 1×ATR stop, default commission 2.50 per contract. -/
def cfgX : BacktestConfig :=
  { initialCapital := 1000, riskPerTrade := 1, stopAtrMultiple := 1 }

/-- An open long position of 1 contract with stop 95, used for the stop-hit
failing input. -/
def posC1 : BacktestPosition :=
  { instrumentId := 1, symbol := "X", quantity := 1, entryPrice := 100,
    entryDate := 0, stopPrice := 95, multiplier := 1 }

/-- A bar whose low (90) is at or below the stop (95): the catastrophe stop
is hit on this day. -/
def rowStop : DayRow :=
  { date := 5, openPrice := 100, high := 101, low := 90, close := 92,
    atr := some 10, ma := some 50, maSlope := some 1, hh20 := some 100,
    ll20 := some 1, hh10 := some 1000, ll10 := some 1 }

/-- Instrument data containing the stop-hit bar. -/
def dataC1 : List InstData := [{ instrument := instX, rows := [rowStop] }]

/-- Backtest state holding the open long position `posC1`. -/
def stC1 : BacktestState :=
  { equity := 1000, cash := 1000, peakEquity := 1000, startOfDayEquity := 1000,
    positions := [(1, posC1)],
    strategyStates := [(1, { direction := some .long, stopPrice := 95 })] }

/-- An exit-long signal at the close of the stop-hit bar. -/
def sigExitC1 : StrategySignal := { date := 5, action := .exitLong, price := 92 }

/-- Two bars for the ATR warmup counterexample. -/
def atrBars2 : List Bar :=
  [ { openPrice := 1, high := 10, low := 8, close := 9 },
    { openPrice := 1, high := 11, low := 9, close := 10 } ]

/-- Helper for the drawdown-duration proofs: scan the series carrying the
length `c` of the ongoing positive run, recording a terminated run's length
whenever a non-positive entry is met (the ongoing final run is dropped). -/
def runScanF : Nat → List ℚ → Nat
  | _, [] => 0
  | c, dd :: rest => if 0 < dd then runScanF (c + 1) rest else max c (runScanF 0 rest)

/-- Config with zero commission, used for the zero-net-P&L exit witness. -/
def c10cfg : BacktestConfig := { commissionPerContract := 0 }

/-- A 1-contract long position entered at 100. -/
def c10pos : BacktestPosition :=
  { instrumentId := 1, symbol := "X", quantity := 1, entryPrice := 100,
    entryDate := 0, stopPrice := 95, multiplier := 1 }

/-- State holding `c10pos` before the exit. -/
def c10st : BacktestState :=
  { equity := 1000, cash := 1000, peakEquity := 1000, positions := [(1, c10pos)] }

/-- The state after exiting `c10pos` at its entry price with zero commission:
net P&L is exactly 0 and the trade lands in the losing counters. -/
def c10out : BacktestState :=
  { equity := 1000, cash := 1000, peakEquity := 1000, positions := []
    strategyStates := [], startOfDayEquity := 0, totalTrades := 1
    winningTrades := 0, losingTrades := 1, grossProfit := 0, grossLoss := 0 }

/-- A current bar whose close (105) breaks the previous bar's 20-day high. -/
def c7cur : Bar := { openPrice := 104, high := 106, low := 99, close := 105 }

/-- The previous bar (close 90, below the breakout reference). -/
def c7prev : Bar := { openPrice := 90, high := 91, low := 89, close := 90 }

/-- Features making the trend filter long-eligible with breakout reference
100: ma 50 below the close, positive slope, ATR 10. -/
def c7feat : Features :=
  { atr := some 10, ma := some 50, maSlope := some 1, hh20 := some 100,
    ll20 := some 1, hh10 := some 1000, ll10 := some 1 }

/-- A flat position whose last exit was long on trading date 1. -/
def c7pos : PositionState :=
  { lastExitDate := some 1, lastExitDirection := some .long }

/-- Previous-day row for the breakout-reference witness (its `hh_20` is the
breakout reference 100). -/
def c6prev : DayRow :=
  { date := 0, openPrice := 90, high := 91, low := 89, close := 90,
    atr := some 10, ma := some 50, maSlope := some 1, hh20 := some 100,
    ll20 := some 1, hh10 := some 1000, ll10 := some 1 }

/-- Current-day row for the breakout-reference witness: close 105 crosses the
previous row's `hh_20` of 100 (its own `hh_20`, 105, would not be crossed). -/
def c6cur : DayRow :=
  { date := 1, openPrice := 104, high := 106, low := 99, close := 105,
    atr := some 10, ma := some 50, maSlope := some 1, hh20 := some 105,
    ll20 := some 1, hh10 := some 1000, ll10 := some 1 }

/-! ## Claim theorems -/

/-- C1: the claim says that when a catastrophe stop is hit (long: day low ≤
stop) or an exit/stop signal arrives for an open position, the engine
executes the exit and removes the position, and the removal raises no error.
In the code, `_execute_exit` itself deletes the position and both callers
delete it a second time, so on the stop path the dict mutation makes the live
`state.positions.items()` iterator raise `RuntimeError`, and on the
signal-exit path the second `del` raises `KeyError`: with one open long
position (quantity 1, stop 95) and a bar with low 90 ≤ 95, both exit paths
raise instead of continuing the day. -/
theorem C1_exit_paths_raise :
    updatePositionsAndCheckStops cfgX 5 stC1 dataC1
        = Except.error "RuntimeError: dictionary changed size during iteration" ∧
    processSignal cfgX sigExitC1 instX 5 stC1 [rowStop] = Except.error "KeyError" ∧
    rowStop.low ≤ posC1.stopPrice ∧ posC1.quantity > 0 := by
  refine ⟨rfl, rfl, by decide, by decide⟩

/-- C2 counterexample: the claim says ATR is undefined at every index
`i < period`.  With `period = 2` and two bars, the code's ATR at index 1 is
already defined (value 2), because pandas' NaN-skipping `max` makes the first
true range fall back to `high - low`, so only `period` bars are needed. -/
theorem C2_counterexample :
    (computeAtr atrBars2 2).getD 1 none = some 2 ∧ 1 < 2 := by
  refine ⟨by decide, by decide⟩

/-- C3 counterexample: the claim says every snapshot's drawdown lies in
`[0, 1)`.  Running the embedded engine on the three-day demo data with
`initial_capital = 1000`, `risk_per_trade = 1.0`, `stop_atr_multiple = 1`
(values the engine accepts unchecked) produces drawdowns `[0, 1/4, 23/20]`:
after the 100-contract entry at 105 (commission 250) the close 96 leaves
equity at −150, so the third snapshot's drawdown is 23/20 ≥ 1. -/
theorem C3_counterexample :
    ((runBacktest cfgX dataX).1.map PortfolioSnapshot.drawdown) = [0, 1/4, 23/20] ∧
    ¬ (∀ s ∈ (runBacktest cfgX dataX).1, s.drawdown < 1) := by
  refine ⟨by decide, by decide⟩

/-- C2 (amended): ATR requires `period` bars — not `period + 1` — before its
first defined value: within the series, `atr[i]` is defined exactly when
`period ≤ i + 1`, i.e. defined from index `period - 1` on, because the first
true range falls back to `high - low` instead of being NaN. -/
theorem C2_atr_warmup (bars : List Bar) (period i : Nat)
    (hp : 1 ≤ period) (hi : i < bars.length) :
    ((computeAtr bars period).getD i none).isSome ↔ period ≤ i + 1 := by
  have hmap : (computeAtr bars period).getD i none
      = (if i + 1 < period then none
         else some ((((trueRangeList bars).drop (i + 1 - period)).take period).sum
                      / (period : ℚ))) := by
    simp only [computeAtr, List.getD_eq_getElem?_getD, List.getElem?_map,
      List.getElem?_range hi, Option.map_some', Option.getD_some]
  rw [hmap]
  split_ifs with h
  · simp only [Option.isSome_none, Bool.false_eq_true, false_iff]
    omega
  · simp only [Option.isSome_some, true_iff]
    omega

/-- Witness for `C2_atr_warmup` at the two-bar series with `period = 2`,
index 1: the hypotheses hold and ATR is defined there. -/
theorem C2_atr_warmup_witness :
    (1 ≤ 2 ∧ 1 < atrBars2.length) ∧
    (((computeAtr atrBars2 2).getD 1 none).isSome ↔ 2 ≤ 1 + 1) :=
  ⟨⟨by norm_num, by decide⟩, C2_atr_warmup atrBars2 2 1 (by norm_num) (by decide)⟩

/-- C9 counterexample: the claim says the metric counts a drawdown run still
ongoing at the last snapshot.  On the series `[1/10, 1/10]` the longest run
of positive drawdowns has length 2 but the code's loop never closes the run,
so `max_drawdown_duration` is 0. -/
theorem C9_counterexample :
    maxDrawdownDuration [1/10, 1/10] = 0 ∧ longestPositiveRun [1/10, 1/10] = 2 := by
  refine ⟨by decide, by decide⟩

/-- Under a flat position with a long-eligible trend filter and defined
features, `generate_signal` reduces to the breakout-crossing test against the
supplied `hh_20` reference, gated by the cooldown. -/
theorem generateSignal_flat_long (scfg : StrategyConfig) (d : Int) (cb pb : Bar)
    (f : Features) (p : PositionState) (m s H L a : ℚ)
    (hflat : p.direction = none) (hma : f.ma = some m) (hsl : f.maSlope = some s)
    (hm : cb.close > m) (hs : s > 0)
    (hH : f.hh20 = some H) (hL : f.ll20 = some L) (hatr : f.atr = some a) :
    Except.map StrategySignal.action (generateSignal scfg d cb (some pb) f p)
      = Except.ok (if cb.close > H ∧ pb.close ≤ H then
          (if isInCooldown scfg d p.lastExitDate p.lastExitDirection .long = true
           then SignalAction.noAction else .entryLong)
          else .noAction) := by
  have htrend : checkTrendFilter cb.close f.ma f.maSlope = .long := by
    rw [hma, hsl]
    simp only [checkTrendFilter, if_pos (And.intro hm hs)]
  by_cases hcross : cb.close > H ∧ pb.close ≤ H
  · have hbreak : checkBreakoutEntry cb.close pb.close f.hh20 f.ll20 .long
        = some .entryLong := by
      rw [hH, hL]
      simp [checkBreakoutEntry, hcross.1, hcross.2]
    rw [if_pos hcross]
    cases hcd : isInCooldown scfg d p.lastExitDate p.lastExitDirection .long with
    | true =>
        simp [generateSignal, Except.map, hflat, htrend, hbreak, hcd]
    | false =>
        simp [generateSignal, Except.map, hflat, htrend, hbreak, hcd, hatr]
  · have hbreak : checkBreakoutEntry cb.close pb.close f.hh20 f.ll20 .long = none := by
      rw [hH, hL]
      simp only [checkBreakoutEntry]
      split_ifs with h1 h2
      · exact absurd ⟨h1.2.1, h1.2.2⟩ hcross
      · exact absurd h2.1 (by decide)
      · rfl
    rw [if_neg hcross]
    simp [generateSignal, Except.map, hflat, htrend, hbreak]

/-- Symmetric version of `generateSignal_flat_long` for the short side. -/
theorem generateSignal_flat_short (scfg : StrategyConfig) (d : Int) (cb pb : Bar)
    (f : Features) (p : PositionState) (m s H L a : ℚ)
    (hflat : p.direction = none) (hma : f.ma = some m) (hsl : f.maSlope = some s)
    (hm : cb.close < m) (hs : s < 0)
    (hH : f.hh20 = some H) (hL : f.ll20 = some L) (hatr : f.atr = some a) :
    Except.map StrategySignal.action (generateSignal scfg d cb (some pb) f p)
      = Except.ok (if cb.close < L ∧ pb.close ≥ L then
          (if isInCooldown scfg d p.lastExitDate p.lastExitDirection .short = true
           then SignalAction.noAction else .entryShort)
          else .noAction) := by
  have htrend : checkTrendFilter cb.close f.ma f.maSlope = .short := by
    rw [hma, hsl]
    simp only [checkTrendFilter]
    rw [if_neg (fun h => absurd h.1 (not_lt.mpr (le_of_lt hm))),
        if_pos (And.intro hm hs)]
  by_cases hcross : cb.close < L ∧ pb.close ≥ L
  · have hbreak : checkBreakoutEntry cb.close pb.close f.hh20 f.ll20 .short
        = some .entryShort := by
      rw [hH, hL]
      simp [checkBreakoutEntry, hcross.1, hcross.2]
    rw [if_pos hcross]
    cases hcd : isInCooldown scfg d p.lastExitDate p.lastExitDirection .short with
    | true =>
        simp [generateSignal, Except.map, hflat, htrend, hbreak, hcd]
    | false =>
        simp [generateSignal, Except.map, hflat, htrend, hbreak, hcd, hatr]
  · have hbreak : checkBreakoutEntry cb.close pb.close f.hh20 f.ll20 .short = none := by
      rw [hH, hL]
      simp only [checkBreakoutEntry]
      split_ifs <;> simp_all
    rw [if_neg hcross]
    simp [generateSignal, Except.map, hflat, htrend, hbreak]

/-- With an open long position whose catastrophe stop is not hit,
`generate_signal` reduces to the rule-based exit test against the supplied
`ll_10` band. -/
theorem generateSignal_open_long_exit (scfg : StrategyConfig) (d : Int) (cb : Bar)
    (pb : Option Bar) (f : Features) (q : PositionState) (l10 h10 : ℚ)
    (hdir : q.direction = some .long) (hnostop : ¬(cb.low ≤ q.stopPrice))
    (hll : f.ll10 = some l10) (hhh : f.hh10 = some h10) :
    Except.map StrategySignal.action (generateSignal scfg d cb pb f q)
      = Except.ok (if cb.close < l10 then SignalAction.exitLong else .hold) := by
  have hstop : checkStopHit cb.high cb.low q.stopPrice .long = false := by
    simp [checkStopHit, hnostop]
  by_cases hex : cb.close < l10
  · have hexit : checkExitSignal cb.close f.ll10 f.hh10 .long = some .exitLong := by
      rw [hll, hhh]
      simp [checkExitSignal, hex]
    rw [if_pos hex]
    simp [generateSignal, Except.map, hdir, hstop, hexit]
  · have hexit : checkExitSignal cb.close f.ll10 f.hh10 .long = none := by
      rw [hll, hhh]
      simp only [checkExitSignal]
      split_ifs with h1 h2
      · exact absurd h1.2 hex
      · exact absurd h2.1 (by decide)
      · rfl
    rw [if_neg hex]
    simp [generateSignal, Except.map, hdir, hstop, hexit]

/-- Symmetric version of `generateSignal_open_long_exit` for a short
position: the exit test uses the supplied `hh_10` band. -/
theorem generateSignal_open_short_exit (scfg : StrategyConfig) (d : Int) (cb : Bar)
    (pb : Option Bar) (f : Features) (q : PositionState) (l10 h10 : ℚ)
    (hdir : q.direction = some .short) (hnostop : ¬(cb.high ≥ q.stopPrice))
    (hll : f.ll10 = some l10) (hhh : f.hh10 = some h10) :
    Except.map StrategySignal.action (generateSignal scfg d cb pb f q)
      = Except.ok (if cb.close > h10 then SignalAction.exitShort else .hold) := by
  have hstop : checkStopHit cb.high cb.low q.stopPrice .short = false := by
    simp [checkStopHit, hnostop]
  by_cases hex : cb.close > h10
  · have hexit : checkExitSignal cb.close f.ll10 f.hh10 .short = some .exitShort := by
      rw [hll, hhh]
      simp [checkExitSignal, hex]
    rw [if_pos hex]
    simp [generateSignal, Except.map, hdir, hstop, hexit]
  · have hexit : checkExitSignal cb.close f.ll10 f.hh10 .short = none := by
      rw [hll, hhh]
      simp only [checkExitSignal]
      split_ifs <;> simp_all
    rw [if_neg hex]
    simp [generateSignal, Except.map, hdir, hstop, hexit]

/-- The `is_in_cooldown` tests exactly: a previous exit exists, its direction
equals the attempted entry direction, and the date difference (Python's
`(current_date - last_exit_date).days`) is strictly below `cooldown_days`. -/
theorem isInCooldown_iff (scfg : StrategyConfig) (d : Int) (led : Option Int)
    (ledir : Option TrendDirection) (dir : TrendDirection) :
    isInCooldown scfg d led ledir dir = true ↔
      (match led, ledir with
       | some e, some dd => dd = dir ∧ d - e < scfg.cooldownDays
       | _, _ => False) := by
  cases led with
  | none => simp [isInCooldown]
  | some e =>
    cases ledir with
    | none => simp [isInCooldown]
    | some dd =>
      by_cases hdd : dd = dir
      · simp [isInCooldown, hdd]
      · simp [isInCooldown, hdd]

/-- C4: `calculate_risk_state` obeys first-match precedence: daily loss
breach → HALT with multiplier 0 and trading disabled, regardless of
drawdown; else drawdown ≥ halt → HALT; else drawdown ≥ warning → WARNING
with multiplier 1/2, trading enabled; else NORMAL with multiplier 1.  The
first two conjuncts identify the recorded `daily_loss_pct` / `drawdown_pct`
with their defining (guarded) formulas. -/
theorem C4_risk_state_precedence (cfg : RiskConfig) (e pk dp sod : ℚ) :
    ((calculateRiskState cfg e pk dp sod).dailyLossPct
        = (if sod > 0 then dp / sod else 0)) ∧
    ((calculateRiskState cfg e pk dp sod).drawdownPct
        = (if pk > 0 then (pk - e) / pk else 0)) ∧
    ((calculateRiskState cfg e pk dp sod).dailyLossPct < -cfg.dailyLossLimitPct →
        (calculateRiskState cfg e pk dp sod).mode = .halt ∧
        (calculateRiskState cfg e pk dp sod).riskMultiplier = 0 ∧
        (calculateRiskState cfg e pk dp sod).canOpenNewTrades = false) ∧
    (¬(calculateRiskState cfg e pk dp sod).dailyLossPct < -cfg.dailyLossLimitPct →
      (calculateRiskState cfg e pk dp sod).drawdownPct ≥ cfg.drawdownHaltPct →
        (calculateRiskState cfg e pk dp sod).mode = .halt ∧
        (calculateRiskState cfg e pk dp sod).riskMultiplier = 0 ∧
        (calculateRiskState cfg e pk dp sod).canOpenNewTrades = false) ∧
    (¬(calculateRiskState cfg e pk dp sod).dailyLossPct < -cfg.dailyLossLimitPct →
      ¬(calculateRiskState cfg e pk dp sod).drawdownPct ≥ cfg.drawdownHaltPct →
      (calculateRiskState cfg e pk dp sod).drawdownPct ≥ cfg.drawdownWarningPct →
        (calculateRiskState cfg e pk dp sod).mode = .warning ∧
        (calculateRiskState cfg e pk dp sod).riskMultiplier = 1 / 2 ∧
        (calculateRiskState cfg e pk dp sod).canOpenNewTrades = true) ∧
    (¬(calculateRiskState cfg e pk dp sod).dailyLossPct < -cfg.dailyLossLimitPct →
      ¬(calculateRiskState cfg e pk dp sod).drawdownPct ≥ cfg.drawdownHaltPct →
      ¬(calculateRiskState cfg e pk dp sod).drawdownPct ≥ cfg.drawdownWarningPct →
        (calculateRiskState cfg e pk dp sod).mode = .normal ∧
        (calculateRiskState cfg e pk dp sod).riskMultiplier = 1 ∧
        (calculateRiskState cfg e pk dp sod).canOpenNewTrades = true) := by
  simp only [calculateRiskState]
  split_ifs <;> simp_all

/-- Witness for `C4_risk_state_precedence`: the spec's own example —
equity 97500, start-of-day 100000, daily P&L −2500 (−2.5%) under the default
2% daily-loss limit — is halted with trading disabled. -/
theorem C4_risk_state_precedence_witness :
    ((calculateRiskState {} 97500 100000 (-2500) 100000).dailyLossPct
        < -(({} : RiskConfig).dailyLossLimitPct)) ∧
    (calculateRiskState {} 97500 100000 (-2500) 100000).mode = .halt ∧
    (calculateRiskState {} 97500 100000 (-2500) 100000).riskMultiplier = 0 ∧
    (calculateRiskState {} 97500 100000 (-2500) 100000).canOpenNewTrades = false :=
  ⟨by decide, (C4_risk_state_precedence {} 97500 100000 (-2500) 100000).2.2.1 (by decide)⟩

/-- C5: `calculate_position_size` returns 0 contracts when the dollar stop
distance is ≤ 0 or the adjusted risk amount is ≤ 0, and otherwise
`floor(risk_amount / stop_distance_dollars)`, clamped into
`[0, max_contracts_per_instrument]` when that cap is configured. -/
theorem C5_position_size_formula (cfg : RiskConfig) (equity entry stop tick mult : ℚ)
    (rs : RiskState) :
    (|entry - stop| * mult ≤ 0 →
        (calculatePositionSize cfg equity entry stop tick mult rs).contracts = 0) ∧
    (equity * cfg.riskPerTrade * rs.riskMultiplier ≤ 0 →
        (calculatePositionSize cfg equity entry stop tick mult rs).contracts = 0) ∧
    (0 < |entry - stop| * mult →
      0 < equity * cfg.riskPerTrade * rs.riskMultiplier →
        (calculatePositionSize cfg equity entry stop tick mult rs).contracts
          = (match cfg.maxContractsPerInstrument with
             | some m => max 0 (min m
                 ⌊equity * cfg.riskPerTrade * rs.riskMultiplier / (|entry - stop| * mult)⌋)
             | none =>
                 ⌊equity * cfg.riskPerTrade * rs.riskMultiplier / (|entry - stop| * mult)⌋)) := by
  refine ⟨?_, ?_, ?_⟩
  · intro h
    simp only [calculatePositionSize, if_pos h]
  · intro h
    simp only [calculatePositionSize]
    split_ifs <;> simp_all
  · intro hsd hra
    have hfloor : (0 : Int) ≤
        ⌊equity * cfg.riskPerTrade * rs.riskMultiplier / (|entry - stop| * mult)⌋ :=
      Int.floor_nonneg.mpr (le_of_lt (div_pos hra hsd))
    simp only [calculatePositionSize, if_neg (not_le.mpr hsd), if_neg (not_le.mpr hra)]
    match hmax : cfg.maxContractsPerInstrument with
    | some m => simp only [hmax]; split_ifs with hgt <;> omega
    | none => simp only [hmax]; omega

/-- Witness for `C5_position_size_formula`: with equity 100000, risk-per-trade
0.5%, entry 4000, stop 3900, multiplier 5 the floor formula gives exactly 1
contract; and a zero stop distance (entry = stop) gives 0 contracts. -/
theorem C5_position_size_formula_witness :
    ((0:ℚ) < |(4000:ℚ) - 3900| * 5 ∧
     (0:ℚ) < 100000 * ({} : RiskConfig).riskPerTrade * 1 ∧
     (calculatePositionSize {} 100000 4000 3900 (1/4) 5
        { equity := 100000, peakEquity := 100000, dailyPnl := 0, drawdownPct := 0
          dailyLossPct := 0, mode := .normal, riskMultiplier := 1
          canOpenNewTrades := true, message := "Normal" }).contracts = 1) ∧
    (|(4000:ℚ) - 4000| * 5 ≤ 0 ∧
     (calculatePositionSize {} 100000 4000 4000 (1/4) 5
        { equity := 100000, peakEquity := 100000, dailyPnl := 0, drawdownPct := 0
          dailyLossPct := 0, mode := .normal, riskMultiplier := 1
          canOpenNewTrades := true, message := "Normal" }).contracts = 0) := by
  constructor
  · refine ⟨by decide, by decide, ?_⟩
    rw [(C5_position_size_formula {} 100000 4000 3900 (1/4) 5 _).2.2 (by decide) (by decide)]
    decide
  · refine ⟨by decide, ?_⟩
    exact (C5_position_size_formula {} 100000 4000 4000 (1/4) 5 _).1 (by decide)

/-- Arithmetic core of the snapshot drawdown: with equity `E` and previous
peak `peak`, the ratcheted peak makes the drawdown nonnegative, and the
drawdown is below 1 exactly when equity is positive (or the peak is ≤ 0, in
which case drawdown is recorded as 0). -/
theorem drawdown_bounds (E peak : ℚ) :
    0 ≤ (if (if E > peak then E else peak) > 0
         then ((if E > peak then E else peak) - E) / (if E > peak then E else peak)
         else 0) ∧
    ((if (if E > peak then E else peak) > 0
      then ((if E > peak then E else peak) - E) / (if E > peak then E else peak)
      else 0) < 1 ↔ ((if E > peak then E else peak) ≤ 0 ∨ 0 < E)) := by
  set p := if E > peak then E else peak with hp
  have hEp : E ≤ p := by
    rw [hp]; split_ifs with h
    · exact le_refl E
    · exact le_of_not_lt h
  constructor
  · split_ifs with h
    · exact div_nonneg (by linarith) (le_of_lt h)
    · exact le_refl 0
  · split_ifs with h
    · rw [div_lt_one h, sub_lt_self_iff]
      exact Iff.symm (or_iff_right (not_le_of_lt h))
    · exact iff_of_true one_pos (Or.inl (not_lt.mp h))

/-- C3 (amended): at every daily snapshot, the recorded drawdown equals
`(peak_equity − equity)/peak_equity` whenever the (updated) peak equity is
positive (and 0 otherwise), is always ≥ 0, and is < 1 exactly when the
snapshot equity is positive — the engine does not guarantee positive equity,
so `[0, 1)` is not guaranteed. -/
theorem C3_snapshot_drawdown (d : Int) (st : BacktestState) (data : List InstData) :
    (0 ≤ (createDailySnapshot d st data).2.drawdown) ∧
    ((createDailySnapshot d st data).2.drawdown
        = (if (createDailySnapshot d st data).1.peakEquity > 0
           then ((createDailySnapshot d st data).1.peakEquity
                  - (createDailySnapshot d st data).1.equity)
                / (createDailySnapshot d st data).1.peakEquity
           else 0)) ∧
    ((createDailySnapshot d st data).2.drawdown < 1 ↔
        ((createDailySnapshot d st data).1.peakEquity ≤ 0 ∨
         0 < (createDailySnapshot d st data).1.equity)) :=
  ⟨(drawdown_bounds _ _).1, rfl, (drawdown_bounds _ _).2⟩

/-- Arithmetic core of the peak-equity update: the conditional update equals
`max peak E` and never decreases the peak. -/
theorem peak_ratchet (E peak : ℚ) :
    (if E > peak then E else peak) = max peak E ∧
    peak ≤ (if E > peak then E else peak) := by
  rw [max_def]
  constructor
  · split_ifs <;> linarith
  · split_ifs with h
    · exact le_of_lt h
    · exact le_refl _

/-- C8: after a daily snapshot, equity equals cash plus the recorded
unrealized P&L of the open positions marked at the day's close exactly, the
snapshot equity is the state's equity, and peak equity ratchets:
`peak' = max(peak, equity)`, hence never decreases. -/
theorem C8_snapshot_invariants (d : Int) (st : BacktestState) (data : List InstData) :
    ((createDailySnapshot d st data).2.equity
        = (createDailySnapshot d st data).2.cash
          + (createDailySnapshot d st data).2.unrealizedPnl) ∧
    ((createDailySnapshot d st data).1.equity = (createDailySnapshot d st data).2.equity) ∧
    ((createDailySnapshot d st data).1.peakEquity
        = max st.peakEquity (createDailySnapshot d st data).1.equity) ∧
    st.peakEquity ≤ (createDailySnapshot d st data).1.peakEquity :=
  ⟨rfl, rfl, (peak_ratchet _ _).1, (peak_ratchet _ _).2⟩

/-- C10: in `_execute_exit`, a trade whose net P&L (realized minus exit
commission) is exactly zero increments `losing_trades` and adds nothing to
`gross_loss` (and nothing to the winning side); `winning_trades` is
incremented exactly when the net P&L is strictly positive. -/
theorem C10_zero_pnl_is_loss (cfg : BacktestConfig) (d : Int) (instId : Nat)
    (pos : BacktestPosition) (exitPrice : ℚ) (reason : String) (st st' : BacktestState)
    (h : executeExit cfg d instId pos exitPrice reason st = .ok st') :
    (pos.getPnl exitPrice - cfg.commissionPerContract * (pos.quantity.natAbs : ℚ) = 0 →
        st'.losingTrades = st.losingTrades + 1 ∧
        st'.winningTrades = st.winningTrades ∧
        st'.grossLoss = st.grossLoss ∧
        st'.grossProfit = st.grossProfit) ∧
    (st'.winningTrades = st.winningTrades + 1 ↔
        0 < pos.getPnl exitPrice - cfg.commissionPerContract * (pos.quantity.natAbs : ℚ)) := by
  simp only [executeExit, bind, Except.bind] at h
  split at h
  · exact absurd h (by simp)
  · simp only [Except.ok.injEq] at h
    subst h
    constructor
    · intro hz
      have hneg : ¬(pos.getPnl exitPrice
          - cfg.commissionPerContract * (pos.quantity.natAbs : ℚ) > 0) := by
        simp [hz]
      simp only [if_neg hneg]
      refine ⟨trivial, trivial, ?_, trivial⟩
      rw [hz, abs_zero, add_zero]
    · by_cases hpos : pos.getPnl exitPrice
          - cfg.commissionPerContract * (pos.quantity.natAbs : ℚ) > 0
      · simp only [if_pos hpos]
        exact iff_of_true trivial hpos
      · simp only [if_neg hpos]
        exact iff_of_false (by omega) hpos

/-- C6: in the backtest loop's feature assembly, when flat and trend-eligible
(and not cooldown-blocked), an entry signal fires exactly on the bar where
the close crosses the *previous* row's `hh_20` / `ll_20` (breakout reference
excluding today's extreme), while with an open position the rule-based
exit test uses the *current* row's `hh_10` / `ll_10`. -/
theorem C6_breakout_reference_asymmetry (scfg : StrategyConfig) (d : Int)
    (cur prev : DayRow) (p q : PositionState) (m s H L a l10 h10 : ℚ) :
    (p.direction = none → cur.ma = some m → cur.maSlope = some s →
     cur.close > m → s > 0 →
     prev.hh20 = some H → prev.ll20 = some L → cur.atr = some a →
     isInCooldown scfg d p.lastExitDate p.lastExitDirection .long = false →
     (Except.map StrategySignal.action
        (generateSignal scfg d cur.toBar (some prev.toBar) (buildFeatures cur prev) p)
        = Except.ok SignalAction.entryLong ↔ (cur.close > H ∧ prev.close ≤ H))) ∧
    (p.direction = none → cur.ma = some m → cur.maSlope = some s →
     cur.close < m → s < 0 →
     prev.hh20 = some H → prev.ll20 = some L → cur.atr = some a →
     isInCooldown scfg d p.lastExitDate p.lastExitDirection .short = false →
     (Except.map StrategySignal.action
        (generateSignal scfg d cur.toBar (some prev.toBar) (buildFeatures cur prev) p)
        = Except.ok SignalAction.entryShort ↔ (cur.close < L ∧ prev.close ≥ L))) ∧
    (q.direction = some .long → ¬(cur.low ≤ q.stopPrice) →
     cur.ll10 = some l10 → cur.hh10 = some h10 →
     (Except.map StrategySignal.action
        (generateSignal scfg d cur.toBar (some prev.toBar) (buildFeatures cur prev) q)
        = Except.ok SignalAction.exitLong ↔ cur.close < l10)) ∧
    (q.direction = some .short → ¬(cur.high ≥ q.stopPrice) →
     cur.ll10 = some l10 → cur.hh10 = some h10 →
     (Except.map StrategySignal.action
        (generateSignal scfg d cur.toBar (some prev.toBar) (buildFeatures cur prev) q)
        = Except.ok SignalAction.exitShort ↔ cur.close > h10)) := by
  refine ⟨?_, ?_, ?_, ?_⟩
  · intro hflat hma hsl hm hs hH hL hatr hcd
    rw [generateSignal_flat_long scfg d cur.toBar prev.toBar (buildFeatures cur prev)
          p m s H L a hflat hma hsl hm hs hH hL hatr, hcd]
    by_cases hcross : cur.close > H ∧ prev.close ≤ H
    · simp [DayRow.toBar, hcross.1, hcross.2]
    · have h1 : ¬(cur.toBar.close > H ∧ prev.toBar.close ≤ H) := hcross
      rw [if_neg h1]
      simp [hcross]
  · intro hflat hma hsl hm hs hH hL hatr hcd
    rw [generateSignal_flat_short scfg d cur.toBar prev.toBar (buildFeatures cur prev)
          p m s H L a hflat hma hsl hm hs hH hL hatr, hcd]
    by_cases hcross : cur.close < L ∧ prev.close ≥ L
    · simp [DayRow.toBar, hcross.1, hcross.2]
    · have h1 : ¬(cur.toBar.close < L ∧ prev.toBar.close ≥ L) := hcross
      rw [if_neg h1]
      simp [hcross]
  · intro hdir hnostop hll hhh
    rw [generateSignal_open_long_exit scfg d cur.toBar (some prev.toBar)
          (buildFeatures cur prev) q l10 h10 hdir hnostop hll hhh]
    by_cases hex : cur.close < l10
    · simp [DayRow.toBar, hex]
    · have h1 : ¬(cur.toBar.close < l10) := hex
      rw [if_neg h1]
      simp [hex]
  · intro hdir hnostop hll hhh
    rw [generateSignal_open_short_exit scfg d cur.toBar (some prev.toBar)
          (buildFeatures cur prev) q l10 h10 hdir hnostop hll hhh]
    by_cases hex : cur.close > h10
    · simp [DayRow.toBar, hex]
    · have h1 : ¬(cur.toBar.close > h10) := hex
      rw [if_neg h1]
      simp [hex]

/-- Witness for `C6_breakout_reference_asymmetry`: with the previous row's
breakout reference 100, close 105 and previous close 90, the long entry
fires. -/
theorem C6_breakout_reference_asymmetry_witness :
    Except.map StrategySignal.action
        (generateSignal {} 1 c6cur.toBar (some c6prev.toBar)
          (buildFeatures c6cur c6prev) ({} : PositionState))
      = Except.ok SignalAction.entryLong ∧
    (c6cur.close > 100 ∧ c6prev.close ≤ 100) :=
  ⟨((C6_breakout_reference_asymmetry {} 1 c6cur c6prev {} {} 50 1 100 1 10 1 1000).1
      rfl rfl rfl (by decide) (by decide) rfl rfl rfl rfl).mpr
        ⟨by decide, by decide⟩,
   by decide, by decide⟩

/-- C7 counterexample: the claim counts cooldown in *trading* days.  Exit
long on trading date 1; the next trading dates are only 0, 1, 4 (a gap), so a
long re-entry attempt on date 4 is 1 trading day after the exit — inside the
3-day cooldown per the claim — yet the code compares the calendar-date
difference (3 ≮ 3) and emits the entry instead of suppressing it. -/
theorem C7_counterexample :
    tradingDaysSince [0, 1, 4] 1 4 = 1 ∧
    ((tradingDaysSince [0, 1, 4] 1 4 : Int) < ({} : StrategyConfig).cooldownDays) ∧
    c7pos.lastExitDirection = some TrendDirection.long ∧
    Except.map StrategySignal.action
        (generateSignal {} 4 c7cur (some c7prev) c7feat c7pos)
      = Except.ok SignalAction.entryLong :=
  ⟨by decide, by decide, rfl, rfl⟩

/-- C7 (amended): in a flat state with the trend filter and breakout both
firing, the entry is suppressed to no-action iff the last exit exists, was in
the same direction, and happened strictly less than `cooldown_days`
*calendar* days ago (the code subtracts dates); the opposite direction and
the no-prior-exit case are never blocked. -/
theorem C7_cooldown_same_direction (scfg : StrategyConfig) (d : Int) (cb pb : Bar)
    (f : Features) (p : PositionState) (m s H L a : ℚ) :
    (p.direction = none → f.ma = some m → f.maSlope = some s →
     cb.close > m → s > 0 → f.hh20 = some H → f.ll20 = some L → f.atr = some a →
     cb.close > H → pb.close ≤ H →
     (Except.map StrategySignal.action (generateSignal scfg d cb (some pb) f p)
          = Except.ok SignalAction.noAction ↔
       (match p.lastExitDate, p.lastExitDirection with
        | some e, some dir => dir = .long ∧ d - e < scfg.cooldownDays
        | _, _ => False))) ∧
    (p.direction = none → f.ma = some m → f.maSlope = some s →
     cb.close < m → s < 0 → f.hh20 = some H → f.ll20 = some L → f.atr = some a →
     cb.close < L → pb.close ≥ L →
     (Except.map StrategySignal.action (generateSignal scfg d cb (some pb) f p)
          = Except.ok SignalAction.noAction ↔
       (match p.lastExitDate, p.lastExitDirection with
        | some e, some dir => dir = .short ∧ d - e < scfg.cooldownDays
        | _, _ => False))) := by
  constructor
  · intro hflat hma hsl hm hs hH hL hatr hcl hpb
    rw [generateSignal_flat_long scfg d cb pb f p m s H L a hflat hma hsl hm hs hH hL hatr,
        if_pos ⟨hcl, hpb⟩,
        ← isInCooldown_iff scfg d p.lastExitDate p.lastExitDirection .long]
    cases hcd : isInCooldown scfg d p.lastExitDate p.lastExitDirection .long
    · simp
    · simp
  · intro hflat hma hsl hm hs hH hL hatr hcl hpb
    rw [generateSignal_flat_short scfg d cb pb f p m s H L a hflat hma hsl hm hs hH hL hatr,
        if_pos ⟨hcl, hpb⟩,
        ← isInCooldown_iff scfg d p.lastExitDate p.lastExitDirection .short]
    cases hcd : isInCooldown scfg d p.lastExitDate p.lastExitDirection .short
    · simp
    · simp

/-- Witness for `C7_cooldown_same_direction`: exiting long on date 1 and
re-attempting a long breakout entry on date 3 with the default 3-day
cooldown is suppressed to no-action. -/
theorem C7_cooldown_same_direction_witness :
    Except.map StrategySignal.action
        (generateSignal {} 3 c7cur (some c7prev) c7feat c7pos)
      = Except.ok SignalAction.noAction :=
  ((C7_cooldown_same_direction {} 3 c7cur c7prev c7feat c7pos 50 1 100 1 10).1
      rfl rfl rfl (by decide) (by decide) rfl rfl rfl (by decide) (by decide)).mpr
    ⟨rfl, by decide⟩

/-- Witness for `C10_zero_pnl_is_loss`: exiting a 1-contract long at its
entry price with zero commission yields net P&L 0 and lands in the losing
counters without touching `gross_loss`. -/
theorem C10_zero_pnl_is_loss_witness :
    executeExit c10cfg 7 1 c10pos 100 "signal_exit" c10st = Except.ok c10out ∧
    (c10pos.getPnl 100 - c10cfg.commissionPerContract * (c10pos.quantity.natAbs : ℚ) = 0) ∧
    (c10out.losingTrades = c10st.losingTrades + 1 ∧
     c10out.winningTrades = c10st.winningTrades ∧
     c10out.grossLoss = c10st.grossLoss ∧
     c10out.grossProfit = c10st.grossProfit) :=
  ⟨rfl, by decide,
   (C10_zero_pnl_is_loss c10cfg 7 1 c10pos 100 "signal_exit" c10st c10out rfl).1
     (by decide)⟩

/-- At most every entry of a list is leading-positive. -/
theorem leadingPos_le_length (l : List ℚ) : leadingPos l ≤ l.length := by
  induction l with
  | nil => simp [leadingPos]
  | cons x l ih =>
      simp only [leadingPos, List.length_cons]
      split_ifs <;> omega

/-- At most every entry of a list is trailing-positive. -/
theorem trailingPos_le_length (l : List ℚ) : trailingPos l ≤ l.length := by
  unfold trailingPos
  rw [← List.length_reverse l]
  exact leadingPos_le_length l.reverse

/-- Appending one element extends the leading-positive count only when the
whole list was positive. -/
theorem leadingPos_append_single (r : List ℚ) (x : ℚ) :
    leadingPos (r ++ [x])
      = if leadingPos r = r.length
        then r.length + (if 0 < x then 1 else 0)
        else leadingPos r := by
  induction r with
  | nil => simp only [List.nil_append, leadingPos, List.length_nil]; split_ifs <;> omega
  | cons y r ih =>
      rw [List.cons_append]
      simp only [leadingPos, List.length_cons]
      rw [ih]
      have hr := leadingPos_le_length r
      split_ifs <;> first | omega | simp_all

/-- Cons rule for the trailing-positive count. -/
theorem trailingPos_cons (x : ℚ) (l : List ℚ) :
    trailingPos (x :: l)
      = if trailingPos l = l.length
        then l.length + (if 0 < x then 1 else 0)
        else trailingPos l := by
  unfold trailingPos
  rw [List.reverse_cons, leadingPos_append_single, List.length_reverse]

/-- Cons rule for the zero-drawdown index list. -/
theorem zeroIndices_cons (d : ℚ) (rest : List ℚ) :
    zeroIndices (d :: rest)
      = (if d = 0 then [0] else []) ++ (zeroIndices rest).map (· + 1) := by
  unfold zeroIndices
  rw [List.length_cons, List.range_succ_eq_map, List.filter_cons,
      List.filter_map Nat.succ (List.range rest.length)]
  have hpred : ((List.range rest.length).filter
        ((fun b => decide ((d :: rest).getD b 1 = 0)) ∘ Nat.succ))
      = (List.range rest.length).filter (fun b => decide (rest.getD b 1 = 0)) := by
    apply List.filter_congr
    intro b _
    simp [Function.comp, List.getD_cons_succ]
  rw [hpred]
  by_cases hd : d = 0
  · rw [if_pos (by simp [List.getD_cons_zero, hd]), if_pos hd]
    simp [Nat.succ_eq_add_one]
  · rw [if_neg (by simp [List.getD_cons_zero, hd]), if_neg hd]
    simp [Nat.succ_eq_add_one]

/-- Membership in `zeroIndices`. -/
theorem mem_zeroIndices {ds : List ℚ} {b : Nat} :
    b ∈ zeroIndices ds ↔ b < ds.length ∧ ds.getD b 1 = 0 := by
  simp [zeroIndices, List.mem_filter, List.mem_range]

/-- The metric loop of `_calculate_final_metrics`, related to the run-length
scan: from a non-drawdown state it computes `max m (runScanF 0 ds)`, and from
an in-drawdown state whose current run length is `i - start` it computes
`max m (runScanF (i - start) ds)` (for nonnegative drawdown series). -/
theorem ddScan_spec (ds : List ℚ) (hnn : ∀ x ∈ ds, 0 ≤ x) :
    (∀ start i m, start ≤ i →
        ddScan ds true start i m = max m (runScanF (i - start) ds)) ∧
    (∀ start i m, ddScan ds false start i m = max m (runScanF 0 ds)) := by
  induction ds with
  | nil =>
      constructor <;> intro start i m <;> intros <;> simp [ddScan, runScanF]
  | cons dd rest ih =>
      have hd : 0 ≤ dd := hnn dd (List.mem_cons_self dd rest)
      have hrest : ∀ x ∈ rest, 0 ≤ x := fun x hx => hnn x (List.mem_cons_of_mem dd hx)
      obtain ⟨ihT, ihF⟩ := ih hrest
      constructor
      · intro start i m hsi
        rcases hd.lt_or_eq with hpos | rfl
        · simp only [ddScan]
          rw [if_neg (by simp), if_neg (fun h => absurd h.1 (ne_of_gt hpos)),
              ihT start (i + 1) m (Nat.le_succ_of_le hsi)]
          have hrun : runScanF (i - start) (dd :: rest)
              = runScanF ((i - start) + 1) rest := by
            simp only [runScanF]; rw [if_pos hpos]
          rw [hrun, show i + 1 - start = (i - start) + 1 from by omega]
        · simp only [ddScan]
          rw [if_neg (by simp), if_pos (by simp),
              ihF start (i + 1) (max m (i - start))]
          have hrun : runScanF (i - start) ((0 : ℚ) :: rest)
              = max (i - start) (runScanF 0 rest) := by
            simp only [runScanF]; rw [if_neg (lt_irrefl 0)]
          rw [hrun, Nat.max_assoc]
      · intro start i m
        rcases hd.lt_or_eq with hpos | rfl
        · simp only [ddScan]
          rw [if_pos (by simp [hpos]), ihT i (i + 1) m (Nat.le_succ i)]
          have hrun : runScanF 0 (dd :: rest) = runScanF 1 rest := by
            simp only [runScanF]; rw [if_pos hpos]
          rw [hrun, show i + 1 - i = 1 from by omega]
        · simp only [ddScan]
          rw [if_neg (by simp), if_neg (by simp), ihF start (i + 1) m]
          have hrun : runScanF 0 ((0 : ℚ) :: rest) = max 0 (runScanF 0 rest) := by
            simp only [runScanF]; rw [if_neg (lt_irrefl 0)]
          rw [hrun, Nat.zero_max]

/-- The run-length scan computes, over the zero-drawdown positions `b`, the
largest terminated run length, counting a run that extends back into the
virtual ongoing run of length `c` at the left end. -/
theorem runScanF_eq_zeros (ds : List ℚ) :
    ∀ c : Nat, (∀ x ∈ ds, 0 ≤ x) →
    runScanF c ds
      = ((zeroIndices ds).map
          (fun b => trailingPos (ds.take b)
            + if trailingPos (ds.take b) = b then c else 0)).foldr max 0 := by
  induction ds with
  | nil => intro c _; simp [runScanF, zeroIndices]
  | cons dd rest ih =>
      intro c hnn
      have hd : 0 ≤ dd := hnn dd (List.mem_cons_self dd rest)
      have hrest : ∀ x ∈ rest, 0 ≤ x := fun x hx => hnn x (List.mem_cons_of_mem dd hx)
      rcases hd.lt_or_eq with hpos | rfl
      · have h1 : runScanF c (dd :: rest) = runScanF (c + 1) rest := by
          simp only [runScanF]; rw [if_pos hpos]
        rw [h1, ih (c + 1) hrest, zeroIndices_cons, if_neg (ne_of_gt hpos)]
        simp only [List.nil_append, List.map_map]
        apply congrArg (List.foldr max 0)
        apply List.map_congr_left
        intro b hb
        obtain ⟨hblt, hbz⟩ := mem_zeroIndices.mp hb
        have hlen : (rest.take b).length = b := by rw [List.length_take]; omega
        have htle : trailingPos (rest.take b) ≤ b := by
          have h := trailingPos_le_length (rest.take b)
          omega
        simp only [Function.comp_apply, List.take_succ_cons, trailingPos_cons, hlen]
        by_cases ht : trailingPos (rest.take b) = b
        · rw [if_pos ht, if_pos hpos, if_pos ht, if_pos (by omega)]
          omega
        · rw [if_neg ht, if_neg ht, if_neg (by omega)]
      · have h1 : runScanF c ((0 : ℚ) :: rest) = max c (runScanF 0 rest) := by
          simp only [runScanF]; rw [if_neg (lt_irrefl 0)]
        rw [h1, ih 0 hrest, zeroIndices_cons, if_pos rfl]
        simp only [List.singleton_append, List.map_cons, List.foldr_cons, List.map_map]
        have hzero : (trailingPos (((0 : ℚ) :: rest).take 0)
            + if trailingPos (((0 : ℚ) :: rest).take 0) = 0 then c else 0) = c := by
          simp [trailingPos, leadingPos]
        rw [hzero]
        apply congrArg (max c)
        apply congrArg (List.foldr max 0)
        apply List.map_congr_left
        intro b hb
        obtain ⟨hblt, hbz⟩ := mem_zeroIndices.mp hb
        have hlen : (rest.take b).length = b := by rw [List.length_take]; omega
        have htle : trailingPos (rest.take b) ≤ b := by
          have h := trailingPos_le_length (rest.take b)
          omega
        simp only [Function.comp_apply, List.take_succ_cons, trailingPos_cons, hlen]
        rw [if_neg (lt_irrefl 0)]
        by_cases ht : trailingPos (rest.take b) = b
        · rw [if_pos ht, if_pos ht, if_neg (by omega)]
          omega
        · rw [if_neg ht, if_neg ht, if_neg (by omega)]

/-- C9 (amended): the final `max_drawdown_duration` equals the length of the
longest contiguous run of positive-drawdown days that is *terminated* by a
later zero-drawdown day; a run still ongoing at the last snapshot is not
counted (drawdowns are nonnegative, as established for the snapshot series). -/
theorem C9_terminated_runs (ds : List ℚ) (hnn : ∀ x ∈ ds, 0 ≤ x) :
    maxDrawdownDuration ds = longestTerminatedRun ds := by
  unfold maxDrawdownDuration longestTerminatedRun
  rw [(ddScan_spec ds hnn).2 0 0 0, runScanF_eq_zeros ds 0 hnn, Nat.zero_max]
  congr 1
  apply List.map_congr_left
  intro b _
  split_ifs <;> omega

/-- Witness for `C9_terminated_runs`: on `[1/10, 0, 1/10, 1/10]` the metric
and the terminated-run length agree and equal 1 (the final ongoing run of
length 2 is not counted). -/
theorem C9_terminated_runs_witness :
    (∀ x ∈ [(1:ℚ)/10, 0, 1/10, 1/10], 0 ≤ x) ∧
    maxDrawdownDuration [(1:ℚ)/10, 0, 1/10, 1/10]
      = longestTerminatedRun [(1:ℚ)/10, 0, 1/10, 1/10] ∧
    maxDrawdownDuration [(1:ℚ)/10, 0, 1/10, 1/10] = 1 :=
  ⟨by decide, C9_terminated_runs _ (by decide), by decide⟩

end TradingLab
